import Mathlib

/-
Shallow embedding of `src/gui/src/2D/controls/virtualKeyboard.ts` (class
`VirtualKeyboard extends StackPanel`), the on-screen virtual keyboard widget.

Modelling decisions:
- Machine numbers (`number` in TypeScript) that hold small integers
  (`shiftState`, `thickness`, key codes) are modelled as `Int`.
- JavaScript truthiness on a number `n` is `n ≠ 0`; truthiness on a string
  `s` is `s ≠ ""`; truthiness on a nullable object is `Option.isSome`.
- The host-framework pieces (StackPanel / Button / TextBlock / InputText of
  the Babylon GUI library, which back the widget but are external
  collaborators) are modelled structurally: a button keeps exactly the fields
  the keyboard reads or writes, a row is the list of its key buttons, and an
  `InputText` records the `processKey` calls it receives together with its
  focus/blur observer lists.
-/

/-- Model of the JavaScript builtin `String.prototype.toUpperCase` as used by
the widget (Basic-Latin case mapping applied characterwise; the keyboard only
feeds it key labels). -/
def jsToUpperCase (s : String) : String :=
  String.mk (s.data.map Char.toUpper)

/-- Model of the JavaScript builtin `String.prototype.toLowerCase`, see
`jsToUpperCase`. -/
def jsToLowerCase (s : String) : String :=
  String.mk (s.data.map Char.toLower)

/-- The shift-glyph sentinel `"⇧"` used by the switch in `connect` and by
`applyShiftState`. -/
def shiftGlyph : String := "⇧"

/-- The backspace-glyph sentinel `"←"`. -/
def backspaceGlyph : String := "←"

/-- The enter-glyph sentinel `"↵"`. -/
def enterGlyph : String := "↵"

/-- `KeyPropertySet` from the source: a sparse per-key style override set.
Every field is optional (`undefined` in TypeScript is `none` here). -/
structure KeyPropertySet where
  width : Option String := none
  height : Option String := none
  paddingLeft : Option String := none
  paddingRight : Option String := none
  paddingTop : Option String := none
  paddingBottom : Option String := none
  color : Option String := none
  background : Option String := none
deriving DecidableEq

/-- Model of the host-framework `TextBlock` restricted to the single field the
keyboard reads and writes: its `text`. -/
structure TextBlock where
  text : String
deriving DecidableEq

/-- Model of the host-framework `Button` restricted to the fields
`_createKey` and `applyShiftState` touch.  `Button.CreateSimpleButton(key, key)`
names the button after the key and installs one `TextBlock` child holding the
key label, modelled by the `children` list (first child is the label). -/
structure Button where
  name : String
  width : String
  height : String
  color : String
  background : String
  paddingLeft : String
  paddingRight : String
  paddingTop : String
  paddingBottom : String
  thickness : Int
  isFocusInvisible : Bool
  shadowColor : String
  shadowBlur : Int
  shadowOffsetX : Int
  shadowOffsetY : Int
  children : List TextBlock
deriving DecidableEq

/-- The `VirtualKeyboard` panel state: its rows of key buttons (`children`,
each row being the horizontal `StackPanel` the code builds in `addKeysRow`,
modelled as the list of its buttons) together with every scalar field the
class declares.  The shadow fields come from the host `Control` base class
(they are only copied onto new keys). -/
structure VirtualKeyboard where
  defaultButtonWidth : String
  defaultButtonHeight : String
  defaultButtonPaddingLeft : String
  defaultButtonPaddingRight : String
  defaultButtonPaddingTop : String
  defaultButtonPaddingBottom : String
  defaultButtonColor : String
  defaultButtonBackground : String
  shiftButtonColor : String
  selectedShiftThickness : Int
  shiftState : Int
  shadowColor : String
  shadowBlur : Int
  shadowOffsetX : Int
  shadowOffsetY : Int
  isVisible : Bool
  children : List (List Button)
deriving DecidableEq

/-- A fresh `new VirtualKeyboard()`: the property initializers of the class
(`defaultButtonWidth = "40px"`, ..., `shiftState = 0`), no rows yet.  The
shadow and visibility fields take the host `Control` defaults (no shadow,
visible). -/
def VirtualKeyboard.new : VirtualKeyboard where
  defaultButtonWidth := "40px"
  defaultButtonHeight := "40px"
  defaultButtonPaddingLeft := "2px"
  defaultButtonPaddingRight := "2px"
  defaultButtonPaddingTop := "2px"
  defaultButtonPaddingBottom := "2px"
  defaultButtonColor := "#DDD"
  defaultButtonBackground := "#070707"
  shiftButtonColor := "#7799FF"
  selectedShiftThickness := 1
  shiftState := 0
  shadowColor := ""
  shadowBlur := 0
  shadowOffsetX := 0
  shadowOffsetY := 0
  isVisible := true
  children := []

/-- JavaScript `propertySet && propertySet.field ? propertySet.field : dflt`
for an optional string field: the override applies only when the field is
present and truthy (a nonempty string). -/
def pickProp (v : Option String) (dflt : String) : String :=
  match v with
  | some s => if s = "" then dflt else s
  | none => dflt

/-- `_createKey(key, propertySet)` from the source: builds the key button,
resolving each style field against the panel defaults, forcing
`thickness = 0` and `isFocusInvisible = true`, copying the shadow fields, and
installing the label `TextBlock`.  (The `onPointerUpObservable` wiring that
re-emits `key` through `onKeyPressObservable` is modelled by the key-press
handler taking the key label, below.) -/
def VirtualKeyboard._createKey (vk : VirtualKeyboard) (key : String)
    (propertySet : Option KeyPropertySet) : Button where
  name := key
  width := pickProp (propertySet.bind KeyPropertySet.width) vk.defaultButtonWidth
  height := pickProp (propertySet.bind KeyPropertySet.height) vk.defaultButtonHeight
  color := pickProp (propertySet.bind KeyPropertySet.color) vk.defaultButtonColor
  background := pickProp (propertySet.bind KeyPropertySet.background) vk.defaultButtonBackground
  paddingLeft := pickProp (propertySet.bind KeyPropertySet.paddingLeft) vk.defaultButtonPaddingLeft
  paddingRight := pickProp (propertySet.bind KeyPropertySet.paddingRight) vk.defaultButtonPaddingRight
  paddingTop := pickProp (propertySet.bind KeyPropertySet.paddingTop) vk.defaultButtonPaddingTop
  paddingBottom := pickProp (propertySet.bind KeyPropertySet.paddingBottom) vk.defaultButtonPaddingBottom
  thickness := 0
  isFocusInvisible := true
  shadowColor := vk.shadowColor
  shadowBlur := vk.shadowBlur
  shadowOffsetX := vk.shadowOffsetX
  shadowOffsetY := vk.shadowOffsetY
  children := [{ text := key }]

/-- The loop body of `addKeysRow`: per index `i`, the style entry is
`propertySets[i]` exactly when `propertySets` is present with
`propertySets.length === keys.length`, else `null`.  With equal lengths the
loop pairs `keys[i]` with `propertySets[i]`, which is `keys.zip sets`. -/
def rowOfKeys (vk : VirtualKeyboard) (keys : List String)
    (propertySets : Option (List KeyPropertySet)) : List Button :=
  match propertySets with
  | some sets =>
    if sets.length = keys.length then
      (keys.zip sets).map fun ks => vk._createKey ks.1 (some ks.2)
    else
      keys.map fun k => vk._createKey k none
  | none => keys.map fun k => vk._createKey k none

/-- `addKeysRow(keys, propertySets)` from the source: builds one horizontal
row of key buttons and appends it to the children of the panel. -/
def VirtualKeyboard.addKeysRow (vk : VirtualKeyboard) (keys : List String)
    (propertySets : Option (List KeyPropertySet)) : VirtualKeyboard :=
  { vk with children := vk.children ++ [rowOfKeys vk keys propertySets] }

/-- The per-button body of the `applyShiftState` loops: skip a button without
a first child; on the shift-glyph button set color by truthiness of the state
and thickness by `shiftState > 1`; finally re-case the label text by
`shiftState > 0`. -/
def applyShiftToButton (vk : VirtualKeyboard) (shiftState : Int) (b : Button) : Button :=
  match b.children with
  | [] => b
  | tb :: rest =>
    let b1 := if tb.text = shiftGlyph then
        { b with
          color := if shiftState ≠ 0 then vk.shiftButtonColor else vk.defaultButtonColor
          thickness := if shiftState > 1 then vk.selectedShiftThickness else 0 }
      else b
    { b1 with
      children := { text := if shiftState > 0 then jsToUpperCase tb.text
                            else jsToLowerCase tb.text } :: rest }

/-- `applyShiftState(shiftState)` from the source: walks every button of every
row and applies `applyShiftToButton`.  (The `!this.children` guard in the
source can never fire — `children` is always an array — and an empty panel
makes the loop a no-op.) -/
def VirtualKeyboard.applyShiftState (vk : VirtualKeyboard) (shiftState : Int) : VirtualKeyboard :=
  { vk with children := vk.children.map fun row => row.map (applyShiftToButton vk shiftState) }

/-- `CreateDefaultLayout()` from the source: the five fixed rows, with the
explicit `{ width: "200px" }` override on the space bar. -/
def VirtualKeyboard.CreateDefaultLayout : VirtualKeyboard :=
  let r0 := VirtualKeyboard.new
  let r1 := r0.addKeysRow ["1", "2", "3", "4", "5", "6", "7", "8", "9", "0", "←"] none
  let r2 := r1.addKeysRow ["q", "w", "e", "r", "t", "y", "u", "i", "o", "p"] none
  let r3 := r2.addKeysRow ["a", "s", "d", "f", "g", "h", "j", "k", "l", ";", "\u0027", "↵"] none
  let r4 := r3.addKeysRow ["⇧", "z", "x", "c", "v", "b", "n", "m", ",", ".", "/"] none
  let r5 := r4.addKeysRow [" "] (some [{ width := some "200px" }])
  r5

/-- One `processKey(code, key?)` call received by the attached `InputText`:
`code = 8` deletes the previous character (backspace), `code = 13` commits a
newline (enter), and `code = -1` with `key = some ch` inserts the literal
character `ch` (the `InputText.processKey` contract of the host framework). -/
structure InputCommand where
  code : Int
  key : Option String
deriving DecidableEq

/-- Model of the attached `InputText` control: its two observables are lists
of observer identifiers (`Observable.add` appends a fresh observer,
`Observable.remove` erases it), and `processed` logs every `processKey` call
it receives, oldest first. -/
structure InputText where
  onFocusObservers : List Nat
  onBlurObservers : List Nat
  processed : List InputCommand
deriving DecidableEq

/-- The world a connected keyboard lives in: the panel, the (single)
`InputText` it can attach to, whether `_connectedInputText` currently points
at that input, the three observer handles `connect` stored
(`_onFocusObserver`, `_onBlurObserver`, `_onKeyPressObserver`), the observer
list of the panel-level `onKeyPressObservable`, and a fresh-identifier supply
for `Observable.add`. -/
structure KeyboardScene where
  vk : VirtualKeyboard
  input : InputText
  connected : Bool
  onFocusObserver : Option Nat
  onBlurObserver : Option Nat
  onKeyPressObserver : Option Nat
  onKeyPressObservers : List Nat
  nextObserverId : Nat
deriving DecidableEq

/-- `Observable.remove(observer)`: removing `null` is a no-op, otherwise the
observer is erased from the list. -/
def removeObserver (o : Option Nat) (l : List Nat) : List Nat :=
  match o with
  | none => l
  | some i => l.erase i

/-- `connect(input)` from the source: hides the panel, records the input as
attached, and registers the focus, blur and key-press observers (each
`Observable.add` returns a fresh observer handle, which the panel stores). -/
def KeyboardScene.connect (s : KeyboardScene) : KeyboardScene where
  vk := { s.vk with isVisible := false }
  input := { s.input with
    onFocusObservers := s.input.onFocusObservers ++ [s.nextObserverId]
    onBlurObservers := s.input.onBlurObservers ++ [s.nextObserverId + 1] }
  connected := true
  onFocusObserver := some s.nextObserverId
  onBlurObserver := some (s.nextObserverId + 1)
  onKeyPressObserver := some (s.nextObserverId + 2)
  onKeyPressObservers := s.onKeyPressObservers ++ [s.nextObserverId + 2]
  nextObserverId := s.nextObserverId + 3

/-- `disconnect()` from the source: no-op when `_connectedInputText` is null;
otherwise removes the three observers registered by `connect` and clears the
attached-input reference (the stored observer handles themselves are not
cleared by the source). -/
def KeyboardScene.disconnect (s : KeyboardScene) : KeyboardScene :=
  if s.connected then
    { s with
      input := { s.input with
        onFocusObservers := removeObserver s.onFocusObserver s.input.onFocusObservers
        onBlurObservers := removeObserver s.onBlurObserver s.input.onBlurObservers }
      onKeyPressObservers := removeObserver s.onKeyPressObserver s.onKeyPressObservers
      connected := false }
  else s

/-- The routing closure `connect` registers on `onKeyPressObservable`
(source lines 181-206), invoked with the label of the pressed key:
return immediately when no input is attached; on the shift glyph increment
`shiftState` (wrapping `3` back to `0`) and re-apply the shift state; on the
backspace / enter glyphs forward `processKey(8)` / `processKey(13)`;
otherwise forward the literal character (upper-cased when `shiftState` is
truthy) via `processKey(-1, ch)` and then reset a single-shift
(`shiftState === 1`) back to `0`, re-applying the shift state. -/
def KeyboardScene.handleKeyPress (s : KeyboardScene) (key : String) : KeyboardScene :=
  if s.connected = false then s
  else if key = shiftGlyph then
    let newShift : Int := if s.vk.shiftState + 1 > 2 then 0 else s.vk.shiftState + 1
    { s with vk := ({ s.vk with shiftState := newShift }).applyShiftState newShift }
  else if key = backspaceGlyph then
    { s with input := { s.input with processed := s.input.processed ++ [⟨8, none⟩] } }
  else if key = enterGlyph then
    { s with input := { s.input with processed := s.input.processed ++ [⟨13, none⟩] } }
  else
    let ch := if s.vk.shiftState ≠ 0 then jsToUpperCase key else key
    let s1 := { s with input := { s.input with processed := s.input.processed ++ [⟨-1, some ch⟩] } }
    if s.vk.shiftState = 1 then
      { s1 with vk := ({ s1.vk with shiftState := 0 }).applyShiftState 0 }
    else s1

/-- A sequence of key-press events, delivered left to right. -/
def KeyboardScene.runKeys (s : KeyboardScene) (keys : List String) : KeyboardScene :=
  keys.foldl KeyboardScene.handleKeyPress s


/-- Well-formedness of the observer-identifier supply: every identifier
already registered is below the fresh counter, so the handles `connect`
creates are not yet present in any observer list. -/
def KeyboardScene.freshIds (s : KeyboardScene) : Prop :=
  (∀ i ∈ s.input.onFocusObservers, i < s.nextObserverId) ∧
  (∀ i ∈ s.input.onBlurObservers, i < s.nextObserverId) ∧
  (∀ i ∈ s.onKeyPressObservers, i < s.nextObserverId)

/-- A small concrete scene used to exercise the theorems: a panel with one
letter key and the shift key, not yet connected to its input. -/
def demoBase : KeyboardScene where
  vk := VirtualKeyboard.new.addKeysRow ["a", "⇧"] none
  input := { onFocusObservers := [], onBlurObservers := [], processed := [] }
  connected := false
  onFocusObserver := none
  onBlurObserver := none
  onKeyPressObserver := none
  onKeyPressObservers := []
  nextObserverId := 0

/-- `demoBase` after `connect`. -/
def demoScene : KeyboardScene := demoBase.connect

/-- A one-key panel holding only the shift-glyph button, used as concrete
input for the `applyShiftState` theorems. -/
def shiftOnlyPanel : VirtualKeyboard :=
  { VirtualKeyboard.new with
    children := [[VirtualKeyboard.new._createKey shiftGlyph none]] }

theorem char_toNat_ofNat {n : Nat} (h : n.isValidChar) : (Char.ofNat n).toNat = n := by
  simp [Char.ofNat, h, Char.ofNatAux, Char.toNat, UInt32.toNat, BitVec.toNat_ofNatLt]

theorem charToUpper_def (c : Char) :
    c.toUpper = if c.toNat ≥ 97 ∧ c.toNat ≤ 122 then Char.ofNat (c.toNat - 32) else c := rfl

theorem charToLower_def (c : Char) :
    c.toLower = if c.toNat ≥ 65 ∧ c.toNat ≤ 90 then Char.ofNat (c.toNat + 32) else c := rfl

theorem charToUpper_idem (c : Char) : c.toUpper.toUpper = c.toUpper := by
  by_cases h : c.toNat ≥ 97 ∧ c.toNat ≤ 122
  · have hv : Nat.isValidChar (c.toNat - 32) := Or.inl (by omega)
    have ht : (Char.ofNat (c.toNat - 32)).toNat = c.toNat - 32 := char_toNat_ofNat hv
    have h1 : c.toUpper = Char.ofNat (c.toNat - 32) := by rw [charToUpper_def, if_pos h]
    rw [h1, charToUpper_def, if_neg (by omega)]
  · have h1 : c.toUpper = c := by rw [charToUpper_def, if_neg h]
    rw [h1]
    exact h1

theorem charToLower_idem (c : Char) : c.toLower.toLower = c.toLower := by
  by_cases h : c.toNat ≥ 65 ∧ c.toNat ≤ 90
  · have hv : Nat.isValidChar (c.toNat + 32) := Or.inl (by omega)
    have ht : (Char.ofNat (c.toNat + 32)).toNat = c.toNat + 32 := char_toNat_ofNat hv
    have h1 : c.toLower = Char.ofNat (c.toNat + 32) := by rw [charToLower_def, if_pos h]
    rw [h1, charToLower_def, if_neg (by omega)]
  · have h1 : c.toLower = c := by rw [charToLower_def, if_neg h]
    rw [h1]
    exact h1

theorem charToUpper_cases (c : Char) :
    c.toUpper = c ∨ (65 ≤ c.toUpper.toNat ∧ c.toUpper.toNat ≤ 90) := by
  by_cases h : c.toNat ≥ 97 ∧ c.toNat ≤ 122
  · right
    have hv : Nat.isValidChar (c.toNat - 32) := Or.inl (by omega)
    rw [charToUpper_def, if_pos h, char_toNat_ofNat hv]
    omega
  · left
    rw [charToUpper_def, if_neg h]

theorem charToLower_cases (c : Char) :
    c.toLower = c ∨ (97 ≤ c.toLower.toNat ∧ c.toLower.toNat ≤ 122) := by
  by_cases h : c.toNat ≥ 65 ∧ c.toNat ≤ 90
  · right
    have hv : Nat.isValidChar (c.toNat + 32) := Or.inl (by omega)
    rw [charToLower_def, if_pos h, char_toNat_ofNat hv]
    omega
  · left
    rw [charToLower_def, if_neg h]

theorem jsToUpperCase_idem (s : String) :
    jsToUpperCase (jsToUpperCase s) = jsToUpperCase s := by
  simp only [jsToUpperCase, List.map_map]
  exact congrArg String.mk (List.map_congr_left fun c _ => charToUpper_idem c)

theorem jsToLowerCase_idem (s : String) :
    jsToLowerCase (jsToLowerCase s) = jsToLowerCase s := by
  simp only [jsToLowerCase, List.map_map]
  exact congrArg String.mk (List.map_congr_left fun c _ => charToLower_idem c)

theorem jsToUpperCase_eq_shiftGlyph {s : String} (h : jsToUpperCase s = shiftGlyph) :
    s = shiftGlyph := by
  obtain ⟨data⟩ := s
  cases data with
  | nil => exact absurd h (by decide)
  | cons c rest =>
    have hd : Char.toUpper c :: rest.map Char.toUpper = ['⇧'] := congrArg String.data h
    simp only [List.cons.injEq, List.map_eq_nil_iff] at hd
    obtain ⟨hc, hrest⟩ := hd
    subst hrest
    rcases charToUpper_cases c with h1 | h2
    · rw [h1] at hc
      subst hc
      rfl
    · rw [hc] at h2
      have hn : ('⇧').toNat = 8679 := rfl
      omega

theorem jsToLowerCase_eq_shiftGlyph {s : String} (h : jsToLowerCase s = shiftGlyph) :
    s = shiftGlyph := by
  obtain ⟨data⟩ := s
  cases data with
  | nil => exact absurd h (by decide)
  | cons c rest =>
    have hd : Char.toLower c :: rest.map Char.toLower = ['⇧'] := congrArg String.data h
    simp only [List.cons.injEq, List.map_eq_nil_iff] at hd
    obtain ⟨hc, hrest⟩ := hd
    subst hrest
    rcases charToLower_cases c with h1 | h2
    · rw [h1] at hc
      subst hc
      rfl
    · rw [hc] at h2
      have hn : ('⇧').toNat = 8679 := rfl
      omega

theorem jsToUpperCase_shiftGlyph : jsToUpperCase shiftGlyph = shiftGlyph := by decide

theorem jsToLowerCase_shiftGlyph : jsToLowerCase shiftGlyph = shiftGlyph := by decide

theorem applyShiftState_shiftState (vk : VirtualKeyboard) (st : Int) :
    (vk.applyShiftState st).shiftState = vk.shiftState := rfl

theorem applyShiftToButton_frame (vk : VirtualKeyboard) (c : List (List Button))
    (st : Int) (b : Button) :
    applyShiftToButton { vk with children := c } st b = applyShiftToButton vk st b := rfl

theorem applyShiftToButton_idem (vk : VirtualKeyboard) (st : Int) (b : Button) :
    applyShiftToButton vk st (applyShiftToButton vk st b) = applyShiftToButton vk st b := by
  obtain ⟨nm, w, h, co, bg, pl, pr, pt, pb, th, fi, sc, sb, sx, sy, children⟩ := b
  cases children with
  | nil => rfl
  | cons tb rest =>
    obtain ⟨t⟩ := tb
    by_cases ht : t = shiftGlyph
    · subst ht
      by_cases hs : (0:Int) < st
      · simp [applyShiftToButton, jsToUpperCase_shiftGlyph, hs]
      · simp [applyShiftToButton, jsToLowerCase_shiftGlyph, hs]
    · by_cases hs : (0:Int) < st
      · have h2 : jsToUpperCase t ≠ shiftGlyph := fun hc => ht (jsToUpperCase_eq_shiftGlyph hc)
        simp [applyShiftToButton, ht, hs, h2, jsToUpperCase_idem]
      · have h2 : jsToLowerCase t ≠ shiftGlyph := fun hc => ht (jsToLowerCase_eq_shiftGlyph hc)
        simp [applyShiftToButton, ht, hs, h2, jsToLowerCase_idem]

/-- C5: `applyShiftState` is idempotent — applying the same state twice
yields the same panel (in particular the same label texts, foreground colors
and border thicknesses) as applying it once. -/
theorem applyShiftState_idem (vk : VirtualKeyboard) (st : Int) :
    (vk.applyShiftState st).applyShiftState st = vk.applyShiftState st := by
  have hf : applyShiftToButton (vk.applyShiftState st) st = applyShiftToButton vk st :=
    funext fun _ => rfl
  simp only [VirtualKeyboard.applyShiftState] at hf
  simp only [VirtualKeyboard.applyShiftState, List.map_map]
  congr 1
  apply List.map_congr_left
  intro row _
  rw [hf]
  simp only [Function.comp_apply]
  rw [List.map_map]
  apply List.map_congr_left
  intro b _
  simp only [Function.comp_apply]
  exact applyShiftToButton_idem vk st b

theorem applyShiftState_of_noRows (vk : VirtualKeyboard) (st : Int) (h : vk.children = []) :
    vk.applyShiftState st = vk := by
  obtain ⟨a1, a2, a3, a4, a5, a6, a7, a8, a9, a10, a11, a12, a13, a14, a15, a16, ch⟩ := vk
  simp only at h
  subst h
  rfl

/-- C8 (amended): for every integer `state`, `applyShiftState` sets the
foreground color of a shift-glyph-labelled button to `shiftButtonColor` when
`state` is nonzero (JavaScript truthiness — the source tests `shiftState ?`,
not `shiftState > 0`) and to `defaultButtonColor` when `state = 0`; it sets
the border thickness to `selectedShiftThickness` when `state > 1` and to `0`
otherwise; the label of every button with a first child is upper-cased when
`state > 0` and lower-cased otherwise; non-shift buttons keep their color and
thickness; and the call is a no-op on a panel with no rows. -/
theorem applyShiftState_spec (vk : VirtualKeyboard) (st : Int) :
    (vk.children = [] → vk.applyShiftState st = vk) ∧
    ∀ (i j : Nat) (b : Button), (vk.children[i]?.bind fun row => row[j]?) = some b →
      ∀ (tb : TextBlock) (rest : List TextBlock), b.children = tb :: rest →
      ∃ b2 : Button, ((vk.applyShiftState st).children[i]?.bind fun row => row[j]?) = some b2 ∧
        (tb.text = shiftGlyph →
          b2.color = (if st ≠ 0 then vk.shiftButtonColor else vk.defaultButtonColor) ∧
          b2.thickness = (if st > 1 then vk.selectedShiftThickness else 0)) ∧
        (tb.text ≠ shiftGlyph → b2.color = b.color ∧ b2.thickness = b.thickness) ∧
        b2.children =
          { text := (if st > 0 then jsToUpperCase tb.text else jsToLowerCase tb.text) } :: rest := by
  refine ⟨applyShiftState_of_noRows vk st, ?_⟩
  intro i j b hb tb rest hch
  rw [Option.bind_eq_some] at hb
  obtain ⟨row, hrow, hj⟩ := hb
  refine ⟨applyShiftToButton vk st b, ?_, ?_, ?_, ?_⟩
  · simp [VirtualKeyboard.applyShiftState, hrow, hj]
  · intro hglyph
    simp [applyShiftToButton, hch, hglyph]
  · intro hglyph
    simp [applyShiftToButton, hch, hglyph]
  · simp [applyShiftToButton, hch]

/-- C8 counterexample: the claim requires, for every integer state, the
shift-key color `shiftButtonColor` exactly when `state > 0` and
`defaultButtonColor` otherwise.  At `state = -1` on a panel whose only button
is the shift key, the code takes the truthy branch and paints the shift key
`shiftButtonColor` (`"#7799FF"`), not `defaultButtonColor` (`"#DDD"`) as the
claim demands. -/
theorem applyShiftState_negativeState_cex :
    ¬ (∀ (vk : VirtualKeyboard) (st : Int) (b b2 : Button) (tb : TextBlock)
        (rest : List TextBlock),
        (vk.children[0]?.bind fun row => row[0]?) = some b →
        b.children = tb :: rest → tb.text = shiftGlyph →
        ((vk.applyShiftState st).children[0]?.bind fun row => row[0]?) = some b2 →
        b2.color = (if st > 0 then vk.shiftButtonColor else vk.defaultButtonColor)) := by
  intro hcl
  have h := hcl shiftOnlyPanel (-1)
    (VirtualKeyboard.new._createKey shiftGlyph none)
    (applyShiftToButton shiftOnlyPanel (-1) (VirtualKeyboard.new._createKey shiftGlyph none))
    { text := shiftGlyph } [] (by decide) rfl rfl (by decide)
  exact absurd h (by decide)

/-- Witness for `applyShiftState_spec` at the concrete panel `shiftOnlyPanel`
and state `2`: the shift key turns `shiftButtonColor` with the selected
thickness. -/
theorem applyShiftState_spec_check :
    (shiftOnlyPanel.children = [] → shiftOnlyPanel.applyShiftState 2 = shiftOnlyPanel) ∧
    ∃ b2, ((shiftOnlyPanel.applyShiftState 2).children[0]?.bind fun row => row[0]?) = some b2 ∧
      b2.color = "#7799FF" ∧ b2.thickness = 1 := by
  obtain ⟨h1, h2⟩ := applyShiftState_spec shiftOnlyPanel 2
  refine ⟨h1, ?_⟩
  obtain ⟨b2, hb2, hsh, -, -⟩ :=
    h2 0 0 (VirtualKeyboard.new._createKey shiftGlyph none) (by decide) { text := shiftGlyph } [] rfl
  obtain ⟨hc, ht⟩ := hsh rfl
  refine ⟨b2, hb2, ?_, ?_⟩
  · rw [hc]; decide
  · rw [ht]; decide

/-- C10: if a key-press event fires while no input text is attached, the
routing handler registered by `connect` does nothing at all — the scene
(panel, shift state, input, observers) is completely unchanged, even for the
shift glyph. -/
theorem handleKeyPress_detached (s : KeyboardScene) (h : s.connected = false) (key : String) :
    s.handleKeyPress key = s := by
  simp [KeyboardScene.handleKeyPress, h]

/-- Witness for `handleKeyPress_detached` at the disconnected `demoBase`
scene with the shift glyph. -/
theorem handleKeyPress_detached_check :
    demoBase.connected = false ∧ demoBase.handleKeyPress shiftGlyph = demoBase :=
  ⟨by decide, handleKeyPress_detached demoBase (by decide) shiftGlyph⟩

/-- C7: `disconnect` is idempotent and safe — a no-op when nothing is
attached, it always leaves no attached input, a second call changes nothing,
and (for a scene whose observer identifiers are well-formed) it removes
exactly the three listeners `connect` registered, restoring all three
observer lists. -/
theorem disconnect_spec (s : KeyboardScene) :
    (s.connected = false → s.disconnect = s) ∧
    s.disconnect.connected = false ∧
    s.disconnect.disconnect = s.disconnect ∧
    (s.freshIds →
      s.connect.disconnect.input.onFocusObservers = s.input.onFocusObservers ∧
      s.connect.disconnect.input.onBlurObservers = s.input.onBlurObservers ∧
      s.connect.disconnect.onKeyPressObservers = s.onKeyPressObservers ∧
      s.connect.disconnect.connected = false) := by
  refine ⟨?_, ?_, ?_, ?_⟩
  · intro h
    simp [KeyboardScene.disconnect, h]
  · by_cases h : s.connected <;> simp [KeyboardScene.disconnect, h]
  · by_cases h : s.connected <;> simp [KeyboardScene.disconnect, h]
  · rintro ⟨h1, h2, h3⟩
    have nf : s.nextObserverId ∉ s.input.onFocusObservers := fun hm => by
      have := h1 _ hm; omega
    have nb : s.nextObserverId + 1 ∉ s.input.onBlurObservers := fun hm => by
      have := h2 _ hm; omega
    have nk : s.nextObserverId + 2 ∉ s.onKeyPressObservers := fun hm => by
      have := h3 _ hm; omega
    simp [KeyboardScene.connect, KeyboardScene.disconnect, removeObserver,
      List.erase_append_right _ nf, List.erase_append_right _ nb,
      List.erase_append_right _ nk]

/-- Witness for `disconnect_spec` at the concrete `demoBase` scene:
connect-then-disconnect restores the observer lists, detaches the input, and
a second disconnect changes nothing. -/
theorem disconnect_spec_check :
    demoBase.freshIds ∧
    demoBase.connect.disconnect.input.onFocusObservers = demoBase.input.onFocusObservers ∧
    demoBase.connect.disconnect.connected = false ∧
    demoBase.connect.disconnect.disconnect = demoBase.connect.disconnect := by
  have hfresh : demoBase.freshIds := by
    refine ⟨?_, ?_, ?_⟩ <;> intro i hi <;> simp [demoBase] at hi
  obtain ⟨-, -, -, h4⟩ := disconnect_spec demoBase
  obtain ⟨ha, -, -, hd⟩ := h4 hfresh
  exact ⟨hfresh, ha, hd, (disconnect_spec demoBase.connect).2.2.1⟩

/-- C1: on a connected panel, in any reachable shift state `s ∈ {0,1,2}`
(the states reachable from the initial `0`), pressing the shift glyph sets
`shiftState` to `(s+1) % 3` (so three presses return to `0`), re-applies the
shift styling via `applyShiftState` with the new state, and forwards nothing
to the attached input (the input is untouched). -/
theorem connect_shiftGlyph_spec (s : KeyboardScene)
    (hc : s.connected = true) (h0 : 0 ≤ s.vk.shiftState) (h2 : s.vk.shiftState ≤ 2) :
    (s.handleKeyPress shiftGlyph).vk.shiftState = (s.vk.shiftState + 1) % 3 ∧
    (s.handleKeyPress shiftGlyph).vk =
      ({ s.vk with shiftState := (s.vk.shiftState + 1) % 3 }).applyShiftState
        ((s.vk.shiftState + 1) % 3) ∧
    (s.handleKeyPress shiftGlyph).input = s.input := by
  have hm : (if s.vk.shiftState + 1 > 2 then (0:Int) else s.vk.shiftState + 1)
      = (s.vk.shiftState + 1) % 3 := by
    have h3 : s.vk.shiftState = 0 ∨ s.vk.shiftState = 1 ∨ s.vk.shiftState = 2 := by omega
    rcases h3 with h | h | h <;> rw [h] <;> decide
  refine ⟨?_, ?_, ?_⟩ <;>
    simp [KeyboardScene.handleKeyPress, hc, hm, applyShiftState_shiftState]

/-- Witness for `connect_shiftGlyph_spec` at the connected `demoScene`
(shift state `0`). -/
theorem connect_shiftGlyph_check :
    demoScene.connected = true ∧ (0:Int) ≤ demoScene.vk.shiftState ∧
    demoScene.vk.shiftState ≤ 2 ∧
    (demoScene.handleKeyPress shiftGlyph).vk.shiftState = (demoScene.vk.shiftState + 1) % 3 ∧
    (demoScene.handleKeyPress shiftGlyph).input = demoScene.input := by
  have h := connect_shiftGlyph_spec demoScene (by decide) (by decide) (by decide)
  exact ⟨by decide, by decide, by decide, h.1, h.2.2⟩

/-- C2: on a connected panel in a reachable shift state, a literal key (not
the shift, backspace or enter glyph) forwards exactly one
`processKey(-1, ch)` command where `ch` is the upper-cased key when
`shiftState > 0` and the key itself otherwise; afterwards a single-shift
(`shiftState = 1`) resets to `0` through `applyShiftState(0)`, while any
other state (including caps-lock `2`) leaves the panel untouched. -/
theorem connect_literalKey_spec (s : KeyboardScene) (key : String)
    (hc : s.connected = true) (h0 : 0 ≤ s.vk.shiftState) (h2 : s.vk.shiftState ≤ 2)
    (k1 : key ≠ shiftGlyph) (k2 : key ≠ backspaceGlyph) (k3 : key ≠ enterGlyph) :
    (s.handleKeyPress key).input.processed =
      s.input.processed ++
        [⟨-1, some (if 0 < s.vk.shiftState then jsToUpperCase key else key)⟩] ∧
    ((s.handleKeyPress key).vk.shiftState
      = if s.vk.shiftState = 1 then 0 else s.vk.shiftState) ∧
    (s.vk.shiftState = 1 →
      (s.handleKeyPress key).vk = ({ s.vk with shiftState := 0 }).applyShiftState 0) ∧
    (s.vk.shiftState ≠ 1 → (s.handleKeyPress key).vk = s.vk) := by
  have hch : (if s.vk.shiftState ≠ 0 then jsToUpperCase key else key)
      = (if 0 < s.vk.shiftState then jsToUpperCase key else key) := by
    by_cases hz : s.vk.shiftState = 0
    · simp [hz]
    · have hpos : 0 < s.vk.shiftState := by omega
      simp [hz, hpos]
  by_cases h1 : s.vk.shiftState = 1 <;>
    simp [KeyboardScene.handleKeyPress, hc, k1, k2, k3, h1, hch,
      applyShiftState_shiftState]

/-- Witness for `connect_literalKey_spec`: pressing `"a"` on the connected
`demoScene` (shift state `0`) forwards `processKey(-1, "a")` and leaves the
panel untouched. -/
theorem connect_literalKey_check :
    demoScene.connected = true ∧ (0:Int) ≤ demoScene.vk.shiftState ∧
    demoScene.vk.shiftState ≤ 2 ∧ ("a" ≠ shiftGlyph ∧ "a" ≠ backspaceGlyph ∧ "a" ≠ enterGlyph) ∧
    (demoScene.handleKeyPress "a").input.processed =
      demoScene.input.processed ++ [⟨-1, some "a"⟩] ∧
    (demoScene.handleKeyPress "a").vk = demoScene.vk := by
  have h := connect_literalKey_spec demoScene "a" (by decide) (by decide) (by decide)
    (by decide) (by decide) (by decide)
  refine ⟨by decide, by decide, by decide, ⟨by decide, by decide, by decide⟩, ?_, ?_⟩
  · have h5 := h.1
    simpa using h5
  · exact h.2.2.2 (by decide)

/-- C3: on a connected panel, the backspace glyph sends exactly the
delete-previous-character command `processKey(8)` and the enter glyph exactly
the commit/newline command `processKey(13)`; no literal character is
forwarded and the whole panel — `shiftState` included — is left unchanged
(the result differs from the original scene only by the appended command). -/
theorem connect_controlGlyphs_spec (s : KeyboardScene) (hc : s.connected = true) :
    s.handleKeyPress backspaceGlyph =
      { s with input := { s.input with processed := s.input.processed ++ [⟨8, none⟩] } } ∧
    s.handleKeyPress enterGlyph =
      { s with input := { s.input with processed := s.input.processed ++ [⟨13, none⟩] } } := by
  constructor <;>
    simp [KeyboardScene.handleKeyPress, hc, backspaceGlyph, enterGlyph, shiftGlyph]

/-- Witness for `connect_controlGlyphs_spec` at the connected `demoScene`. -/
theorem connect_controlGlyphs_check :
    demoScene.connected = true ∧
    (demoScene.handleKeyPress backspaceGlyph).input.processed = [⟨8, none⟩] ∧
    (demoScene.handleKeyPress enterGlyph).input.processed = [⟨13, none⟩] ∧
    (demoScene.handleKeyPress backspaceGlyph).vk = demoScene.vk := by
  have h := connect_controlGlyphs_spec demoScene (by decide)
  refine ⟨by decide, ?_, ?_, ?_⟩
  · rw [h.1]; decide
  · rw [h.2]; decide
  · rw [h.1]

theorem handleKeyPress_shiftState_mem (s : KeyboardScene) (key : String)
    (h : s.vk.shiftState = 0 ∨ s.vk.shiftState = 1 ∨ s.vk.shiftState = 2) :
    (s.handleKeyPress key).vk.shiftState = 0 ∨ (s.handleKeyPress key).vk.shiftState = 1 ∨
    (s.handleKeyPress key).vk.shiftState = 2 := by
  by_cases hcn : s.connected = false
  · simpa [KeyboardScene.handleKeyPress, hcn] using h
  · have hc : s.connected = true := by
      revert hcn; cases s.connected <;> simp
    by_cases hk1 : key = shiftGlyph
    · subst hk1
      rcases h with h | h | h <;>
        simp [KeyboardScene.handleKeyPress, hc, h, applyShiftState_shiftState]
    · by_cases hk2 : key = backspaceGlyph
      · subst hk2
        simpa [KeyboardScene.handleKeyPress, hc, hk1] using h
      · by_cases hk3 : key = enterGlyph
        · subst hk3
          simpa [KeyboardScene.handleKeyPress, hc, hk1, hk2] using h
        · by_cases h1 : s.vk.shiftState = 1
          · simp [KeyboardScene.handleKeyPress, hc, hk1, hk2, hk3, h1,
              applyShiftState_shiftState]
          · simpa [KeyboardScene.handleKeyPress, hc, hk1, hk2, hk3, h1] using h

/-- C9: starting from the initial shift state `0`, every sequence of
key-press events keeps `shiftState` inside `{0, 1, 2}`. -/
theorem shiftState_invariant (s : KeyboardScene) (h : s.vk.shiftState = 0)
    (keys : List String) :
    (s.runKeys keys).vk.shiftState = 0 ∨ (s.runKeys keys).vk.shiftState = 1 ∨
    (s.runKeys keys).vk.shiftState = 2 := by
  have main : ∀ (ks : List String) (t : KeyboardScene),
      (t.vk.shiftState = 0 ∨ t.vk.shiftState = 1 ∨ t.vk.shiftState = 2) →
      ((t.runKeys ks).vk.shiftState = 0 ∨ (t.runKeys ks).vk.shiftState = 1 ∨
        (t.runKeys ks).vk.shiftState = 2) := by
    intro ks
    induction ks with
    | nil => intro t ht; exact ht
    | cons k ktl ih =>
      intro t ht
      have hstep := handleKeyPress_shiftState_mem t k ht
      simpa [KeyboardScene.runKeys, List.foldl_cons] using ih (t.handleKeyPress k) hstep
  exact main keys s (Or.inl h)

/-- Witness for `shiftState_invariant`: a concrete mixed key sequence on the
connected `demoScene`. -/
theorem shiftState_invariant_check :
    demoScene.vk.shiftState = 0 ∧
    ((demoScene.runKeys [shiftGlyph, "a", shiftGlyph, shiftGlyph]).vk.shiftState = 0 ∨
      (demoScene.runKeys [shiftGlyph, "a", shiftGlyph, shiftGlyph]).vk.shiftState = 1 ∨
      (demoScene.runKeys [shiftGlyph, "a", shiftGlyph, shiftGlyph]).vk.shiftState = 2) :=
  ⟨by decide, shiftState_invariant demoScene (by decide) [shiftGlyph, "a", shiftGlyph, shiftGlyph]⟩

/-- C4: `addKeysRow` appends exactly one row whose button count equals the
label count.  The `i`-th button is built from the `i`-th style entry exactly
when the style list is supplied with length equal to the label list;
otherwise — including any length mismatch, where the style list is ignored
entirely — it is built with no style entry.  A button built with no style
entry takes every one of the eight style fields from the current panel
defaults, and a button built from a style entry takes each field from the
entry whenever that field is present and nonempty. -/
theorem addKeysRow_spec (vk : VirtualKeyboard) (keys : List String)
    (propertySets : Option (List KeyPropertySet)) :
    (vk.addKeysRow keys propertySets).children
      = vk.children ++ [rowOfKeys vk keys propertySets] ∧
    (rowOfKeys vk keys propertySets).length = keys.length ∧
    (∀ (i : Nat) (k : String), keys[i]? = some k →
      ((propertySets = none ∨
          ∃ sets, propertySets = some sets ∧ sets.length ≠ keys.length) →
        (rowOfKeys vk keys propertySets)[i]? = some (vk._createKey k none)) ∧
      (∀ (sets : List KeyPropertySet) (p : KeyPropertySet), propertySets = some sets →
        sets.length = keys.length → sets[i]? = some p →
        (rowOfKeys vk keys propertySets)[i]? = some (vk._createKey k (some p)))) ∧
    (∀ (k : String),
      (vk._createKey k none).width = vk.defaultButtonWidth ∧
      (vk._createKey k none).height = vk.defaultButtonHeight ∧
      (vk._createKey k none).paddingLeft = vk.defaultButtonPaddingLeft ∧
      (vk._createKey k none).paddingRight = vk.defaultButtonPaddingRight ∧
      (vk._createKey k none).paddingTop = vk.defaultButtonPaddingTop ∧
      (vk._createKey k none).paddingBottom = vk.defaultButtonPaddingBottom ∧
      (vk._createKey k none).color = vk.defaultButtonColor ∧
      (vk._createKey k none).background = vk.defaultButtonBackground) ∧
    (∀ (k : String) (p : KeyPropertySet),
      (∀ v, p.width = some v → v ≠ "" → (vk._createKey k (some p)).width = v) ∧
      (∀ v, p.height = some v → v ≠ "" → (vk._createKey k (some p)).height = v) ∧
      (∀ v, p.paddingLeft = some v → v ≠ "" → (vk._createKey k (some p)).paddingLeft = v) ∧
      (∀ v, p.paddingRight = some v → v ≠ "" → (vk._createKey k (some p)).paddingRight = v) ∧
      (∀ v, p.paddingTop = some v → v ≠ "" → (vk._createKey k (some p)).paddingTop = v) ∧
      (∀ v, p.paddingBottom = some v → v ≠ "" → (vk._createKey k (some p)).paddingBottom = v) ∧
      (∀ v, p.color = some v → v ≠ "" → (vk._createKey k (some p)).color = v) ∧
      (∀ v, p.background = some v → v ≠ "" → (vk._createKey k (some p)).background = v)) := by
  refine ⟨rfl, ?_, ?_, ?_, ?_⟩
  · cases propertySets with
    | none => simp [rowOfKeys]
    | some sets =>
      by_cases hlen : sets.length = keys.length <;>
        simp [rowOfKeys, hlen, List.length_zip]
  · intro i k hk
    constructor
    · rintro (rfl | ⟨sets, rfl, hne⟩)
      · simp [rowOfKeys, hk]
      · simp [rowOfKeys, hne, hk]
    · rintro sets p rfl hlen hset
      have hz : (keys.zip sets)[i]? = some (k, p) :=
        List.getElem?_zip_eq_some.mpr ⟨hk, hset⟩
      simp [rowOfKeys, hlen, hz]
  · intro k
    exact ⟨rfl, rfl, rfl, rfl, rfl, rfl, rfl, rfl⟩
  · intro k p
    refine ⟨?_, ?_, ?_, ?_, ?_, ?_, ?_, ?_⟩ <;>
      · intro v hv hne
        simp [VirtualKeyboard._createKey, pickProp, hv, hne]

/-- Witness for `addKeysRow_spec`: one unstyled row (`["q"]`, defaults
apply) and one styled row (`[" "]` with a `"200px"` width override). -/
theorem addKeysRow_check :
    (["q"][0]? = some "q") ∧
    (VirtualKeyboard.new.addKeysRow ["q"] none).children
      = VirtualKeyboard.new.children ++ [rowOfKeys VirtualKeyboard.new ["q"] none] ∧
    (rowOfKeys VirtualKeyboard.new ["q"] none)[0]?
      = some (VirtualKeyboard.new._createKey "q" none) ∧
    (VirtualKeyboard.new._createKey "q" none).width = VirtualKeyboard.new.defaultButtonWidth ∧
    (rowOfKeys VirtualKeyboard.new [" "] (some [{ width := some "200px" }]))[0]?
      = some (VirtualKeyboard.new._createKey " " (some { width := some "200px" })) ∧
    (VirtualKeyboard.new._createKey " " (some { width := some "200px" })).width = "200px" := by
  have h1 := addKeysRow_spec VirtualKeyboard.new ["q"] none
  have h2 := addKeysRow_spec VirtualKeyboard.new [" "] (some [{ width := some "200px" }])
  refine ⟨by decide, h1.1, ?_, (h1.2.2.2.1 "q").1, ?_, ?_⟩
  · exact (h1.2.2.1 0 "q" (by decide)).1 (Or.inl rfl)
  · exact (h2.2.2.1 0 " " (by decide)).2 [{ width := some "200px" }]
      { width := some "200px" } rfl (by decide) (by decide)
  · exact (h2.2.2.2.2 " " { width := some "200px" }).1 "200px" rfl (by decide)

/-- C6 counterexample: the claim says the space-bar key has double the
default button width via its style override.  The default width is `"40px"`
(so double would be `"80px"`), but the explicit override in
`CreateDefaultLayout` is `{ width: "200px" }` — five times the default, not
double. -/
theorem defaultLayout_doubleWidth_cex :
    VirtualKeyboard.CreateDefaultLayout.defaultButtonWidth = "40px" ∧
    ((VirtualKeyboard.CreateDefaultLayout.children[4]?.bind fun row => row[0]?).map Button.width
      = some "200px") ∧
    ("200px" : String) ≠ "80px" := by
  refine ⟨rfl, ?_, by decide⟩
  rfl

/-- C6 (amended): `CreateDefaultLayout` returns a panel with exactly 5 rows
whose key counts are `[11, 10, 12, 11, 1]`, grouped as digits plus backspace
glyph, top letters, home letters plus enter glyph, bottom letters plus shift
glyph, and a single space-bar key whose width is `"200px"` via the explicit
style override (the panel default width being `"40px"`). -/
theorem defaultLayout_spec :
    VirtualKeyboard.CreateDefaultLayout.children.map List.length = [11, 10, 12, 11, 1] ∧
    VirtualKeyboard.CreateDefaultLayout.children.map (fun row => row.map Button.name) =
      [["1", "2", "3", "4", "5", "6", "7", "8", "9", "0", "←"],
       ["q", "w", "e", "r", "t", "y", "u", "i", "o", "p"],
       ["a", "s", "d", "f", "g", "h", "j", "k", "l", ";", "\u0027", "↵"],
       ["⇧", "z", "x", "c", "v", "b", "n", "m", ",", ".", "/"],
       [" "]] ∧
    ((VirtualKeyboard.CreateDefaultLayout.children[4]?.bind fun row => row[0]?).map Button.width
      = some "200px") ∧
    VirtualKeyboard.CreateDefaultLayout.defaultButtonWidth = "40px" := by
  refine ⟨?_, ?_, ?_, rfl⟩ <;> rfl
